import Mathlib

/-!
# Verification of the fingerprint matching engine (`match_service2.py`)

A shallow embedding of the matching engine of the `huella-digital`
repository, together with theorems settling the frozen claims about its
natural-language specification.

Modelling conventions:

* Python integers are `Int`/`Nat`; Python floats are modelled by `ℚ` at the
  places where the float computation is exact-value-preserving on the
  reachable domain (thresholds, scores, ratio tests with squared distances),
  and by `ℝ` where a square root is taken (embedding norms).
* Python's `int(x)` on a nonnegative value is `Int.floor`; on a possibly
  negative value it truncates toward zero (`pyInt`).  Python's built-in
  `round` is round-half-to-even (`pyRound`).
* Dictionaries with a fixed field set become structures; a field that is
  present in some code paths and absent in others becomes an `Option`
  field, and a `dict[key]` access that can raise `KeyError` becomes an
  `Except` computation.
* Fallible library calls (base64, gzip, JSON, OpenCV) return `Option`.
  Base64 is modelled concretely; gzip+JSON text serialization is passed in
  as a pair of functions `pack`/`unpack` over a JSON value type, with the
  properties of the real library (round-trip, the 1f 8b 08 stream header,
  failure on data that does not carry the header) taken as hypotheses at
  the points where they are used.
-/

namespace MatchService

/-! ## Configuration constants (env-var defaults from `match_service2.py`) -/

def FP_RATIO : ℚ := 7/10
def FP_MIN_BASE : ℤ := 45
def FP_MIN_PERCENT : ℚ := 11/200
def FP_CONF_MIN : ℚ := 65
def FP_CONF_HIGH : ℚ := 85
def FP_MIN_KEYPOINTS : ℕ := 200
def FP_MIN_KEYPOINTS_WARN : ℕ := 160
def FP_HIGH_CONF_KP : ℕ := 525
def FP_MARGIN_BASE : ℤ := 3
def FP_MARGIN_PERCENT : ℚ := 1/10
def FP_ABS_MIN_SCORE : ℤ := 45
def FP_SINGLE_TEMPLATE_MARGIN_MIN : ℤ := 5
def FP_SINGLE_TEMPLATE_MARGIN_RATIO : ℚ := 1/10

/-! ## Python numeric primitives -/

/-- Python `int(x)`: truncation toward zero. -/
def pyInt (q : ℚ) : ℤ := if q < 0 then ⌈q⌉ else ⌊q⌋

/-- Python built-in `round(x)`: round half to even (banker's rounding). -/
def pyRound (q : ℚ) : ℤ :=
  if q - ⌊q⌋ < 1/2 then ⌊q⌋
  else if q - ⌊q⌋ > 1/2 then ⌊q⌋ + 1
  else if ⌊q⌋ % 2 = 0 then ⌊q⌋ else ⌊q⌋ + 1

theorem pyInt_intCast (n : ℤ) : pyInt (n : ℚ) = n := by
  unfold pyInt
  split <;> simp

theorem pyInt_natCast (n : ℕ) : pyInt ((n : ℕ) : ℚ) = (n : ℤ) := by
  rw [show ((n : ℕ) : ℚ) = ((n : ℤ) : ℚ) by norm_cast]
  exact pyInt_intCast _

/-! ## `compute_threshold` / `compute_margin` -/

/-- `compute_threshold(min_keypoints, override)` from `match_service2.py`. -/
def compute_threshold (min_keypoints : ℕ) (override : Option ℤ) : ℤ :=
  match override with
  | some o => max 1 o
  | none => max (max FP_MIN_BASE (pyInt ((min_keypoints : ℚ) * FP_MIN_PERCENT))) 1

/-- `compute_margin(threshold)` from `match_service2.py`. -/
def compute_margin (threshold : ℤ) : ℤ :=
  max FP_MARGIN_BASE (pyRound ((threshold : ℚ) * FP_MARGIN_PERCENT))

/-! ## Descriptor matching (BFMatcher knnMatch k=2 + Lowe ratio test)

OpenCV's `BFMatcher(NORM_L2).knnMatch(probe, tmpl, k=2)` returns, for each
probe descriptor, its two nearest template descriptors by L2 distance.  The
ratio test `d1 < FP_RATIO * d2` over nonnegative L2 distances is equivalent
to `d1sq < FP_RATIO^2 * d2sq` over squared distances, which is what we
compute (exactly, in `ℚ`). -/

/-- Squared L2 distance between two descriptor rows. -/
def sqDist (a b : List ℚ) : ℚ :=
  ((a.zip b).map (fun p => (p.1 - p.2) * (p.1 - p.2))).sum

/-- The two smallest elements of a list (`none` if fewer than two), mirroring
`knnMatch` with `k = 2` returning fewer pairs on tiny template sets. -/
def twoSmallest : List ℚ → Option (ℚ × ℚ)
  | [] => none
  | [_] => none
  | a :: b :: rest =>
    some (rest.foldl
      (fun best d =>
        if d < best.1 then (d, best.1)
        else if d < best.2 then (best.1, d)
        else best)
      (if a ≤ b then (a, b) else (b, a)))

/-- Whether one probe descriptor survives the Lowe ratio test against the
template descriptor set. -/
def ratioTestPass (tmpl : List (List ℚ)) (p : List ℚ) : Bool :=
  match twoSmallest (tmpl.map (sqDist p)) with
  | some (d1, d2) => decide (d1 < FP_RATIO * FP_RATIO * d2)
  | none => false

/-- `score = len(good_matches)`: the number of probe descriptors surviving
the ratio test. -/
def good_match_count (probe tmpl : List (List ℚ)) : ℕ :=
  (probe.filter (ratioTestPass tmpl)).length

/-! ## Feature dictionaries and match payloads -/

/-- The feature dictionaries produced by `prepare_features` /
`load_precomputed_template` / the in-memory index. -/
structure Features where
  success : Bool
  keypoints : ℕ
  descriptors : Option (List (List ℚ))
  quality_flag : Bool
  quality_warn : Bool
  error : Option String
  is_precomputed : Bool
deriving DecidableEq

/-- The result payload of `match_feature_sets` (`_base_match_payload` plus
the fields filled in by the matcher). -/
structure MatchPayload where
  accepted : Bool
  score : ℕ
  threshold_used : ℤ
  required_score : ℤ
  confidence : ℚ
  confidence_required : ℚ
  min_keypoints : ℕ
  probe_keypoints : ℕ
  template_keypoints : ℕ
  probe_quality_ok : Bool
  template_quality_ok : Bool
  reason : Option String
  is_precomputed : Bool
  template_index : ℕ
deriving DecidableEq

/-- `_base_match_payload(probe_features, template_features)`. -/
def base_match_payload (probe tmpl : Features) : MatchPayload :=
  { accepted := false
    score := 0
    threshold_used := 0
    required_score := 0
    confidence := 0
    confidence_required := FP_CONF_MIN
    min_keypoints := min probe.keypoints tmpl.keypoints
    probe_keypoints := probe.keypoints
    template_keypoints := tmpl.keypoints
    probe_quality_ok := decide (FP_MIN_KEYPOINTS_WARN ≤ probe.keypoints)
    template_quality_ok := decide (FP_MIN_KEYPOINTS_WARN ≤ tmpl.keypoints)
    reason := none
    is_precomputed := false
    template_index := 0 }

/-- The early-return reasons of the strict decision ladder of
`match_feature_sets` (`none` means all strict gates passed). -/
def strict_gate (score : ℕ) (threshold required_score : ℤ) : Option String :=
  if (score : ℤ) < FP_ABS_MIN_SCORE then some "score_below_abs_min"
  else if (score : ℤ) < threshold then some "score_below_threshold"
  else if (score : ℤ) < required_score then some "insufficient_margin"
  else none

/-- The early-return reasons of the non-strict (verification) decision
ladder of `match_feature_sets`, with the precomputed-template leniency. -/
def lenient_gate (score : ℕ) (threshold required_score : ℤ)
    (is_precomputed : Bool) : Option String :=
  let abs_min_for_precomputed : ℤ :=
    if is_precomputed then max 38 (pyInt ((FP_ABS_MIN_SCORE : ℚ) * (85/100)))
    else FP_ABS_MIN_SCORE
  if (score : ℤ) < abs_min_for_precomputed then some "score_below_abs_min"
  else if is_precomputed then
    let threshold_with_leniency := max abs_min_for_precomputed (threshold - 7)
    if (score : ℤ) < threshold_with_leniency then some "score_below_threshold"
    else if (score : ℤ) < threshold_with_leniency + 3 then some "insufficient_margin"
    else none
  else
    if (score : ℤ) < threshold then some "score_below_threshold"
    else if (score : ℤ) < required_score then some "insufficient_margin"
    else none

/-- The decision tail of `match_feature_sets` (the probe-quality early
return, the strict / lenient score gates, the confidence gate and the final
acceptance), operating on the payload whose score/threshold fields have been
filled in. -/
def decide_match (payload : MatchPayload) (tmpl_prec : Bool)
    (strict_mode : Bool) : MatchPayload :=
  if payload.probe_quality_ok = false then
    { payload with reason := some "probe_low_quality" }
  else
    match (if strict_mode then
             strict_gate payload.score payload.threshold_used payload.required_score
           else
             lenient_gate payload.score payload.threshold_used payload.required_score
               tmpl_prec) with
    | some r => { payload with reason := some r }
    | none =>
      if payload.confidence < payload.confidence_required then
        { payload with reason := some "confidence_low" }
      else
        { payload with accepted := true, reason := some "match" }

/-- `match_feature_sets(probe_features, template_features,
threshold_override, strict_mode)`: compares precomputed descriptors and
applies the decision policy. -/
def match_feature_sets (probe tmpl : Features) (threshold_override : Option ℤ)
    (strict_mode : Bool) : MatchPayload :=
  let payload := base_match_payload probe tmpl
  if probe.success = false then
    { payload with reason := some (probe.error.getD "probe_features_error") }
  else if tmpl.success = false then
    { payload with reason := some (tmpl.error.getD "template_features_error") }
  else
    match probe.descriptors, tmpl.descriptors with
    | none, _ => { payload with reason := some "missing_descriptors" }
    | _, none => { payload with reason := some "missing_descriptors" }
    | some des_probe, some des_template =>
      if des_probe.length < 10 ∨ des_template.length < 10 then
        { payload with reason := some "insufficient_descriptors" }
      else
        let score := good_match_count des_probe des_template
        let threshold := compute_threshold payload.min_keypoints threshold_override
        let margin := compute_margin threshold
        let required_score := threshold + margin
        let confidence : ℚ :=
          if 0 < threshold then min 100 ((score : ℚ) / (threshold : ℚ) * 100) else 0
        let conf_required : ℚ :=
          if FP_HIGH_CONF_KP ≤ payload.min_keypoints then FP_CONF_HIGH else FP_CONF_MIN
        decide_match
          { payload with
              score := score
              threshold_used := threshold
              required_score := required_score
              confidence := confidence
              confidence_required := conf_required
              is_precomputed := tmpl.is_precomputed }
          tmpl.is_precomputed strict_mode

end MatchService

namespace MatchService

/-! ## Strict-mode vs non-strict-mode gates (claim C4) -/

unseal Rat.mul Rat.add Rat.sub Rat.inv in
theorem pyInt_abs_min_lenient : pyInt ((FP_ABS_MIN_SCORE : ℚ) * (85/100)) = 38 := by decide

theorem lenient_gate_of_strict_gate (score : ℕ) (threshold required_score : ℤ)
    (prec : Bool) (h : strict_gate score threshold required_score = none) :
    lenient_gate score threshold required_score prec = none := by
  unfold strict_gate at h
  split_ifs at h with h1 h2 h3
  unfold lenient_gate
  rw [pyInt_abs_min_lenient]
  simp only [FP_ABS_MIN_SCORE] at h1 h2 h3 ⊢
  cases prec <;> simp only [Bool.false_eq_true, if_true, if_false, reduceIte] <;>
    split_ifs <;> first | rfl | omega

end MatchService

namespace MatchService

/-- Monotonicity of the decision tail: a payload accepted under the strict
gates is accepted under the lenient gates. -/
theorem decide_match_mono (payload : MatchPayload) (tmpl_prec : Bool)
    (h : (decide_match payload tmpl_prec true).accepted = true) :
    (decide_match payload tmpl_prec false).accepted = true := by
  unfold decide_match at h ⊢
  by_cases h1 : payload.probe_quality_ok = false
  · rw [if_pos h1] at h ⊢; exact h
  rw [if_neg h1] at h ⊢
  simp only [if_true, if_false, Bool.false_eq_true, reduceIte] at h ⊢
  cases hg : strict_gate payload.score payload.threshold_used payload.required_score with
  | some r =>
    rw [hg] at h
    have hacc : payload.accepted = true := h
    cases hl : lenient_gate payload.score payload.threshold_used payload.required_score
        tmpl_prec with
    | some r2 => exact hacc
    | none =>
      by_cases hc : payload.confidence < payload.confidence_required
      · rw [if_pos hc]; exact hacc
      · rw [if_neg hc]
  | none =>
    rw [hg] at h
    rw [lenient_gate_of_strict_gate _ _ _ tmpl_prec hg]
    exact h

/-- **C4** (strict-mode monotonicity): for every probe feature set, template
feature set and optional threshold override, if `match_feature_sets` accepts
the pair in strict mode then it also accepts the same pair in non-strict
mode: non-strict acceptance is at least as permissive as strict
acceptance. -/
theorem strict_accepted_imp_lenient_accepted (probe tmpl : Features)
    (threshold_override : Option ℤ)
    (h : (match_feature_sets probe tmpl threshold_override true).accepted = true) :
    (match_feature_sets probe tmpl threshold_override false).accepted = true := by
  unfold match_feature_sets at h ⊢
  by_cases h1 : probe.success = false
  · rw [if_pos h1] at h ⊢; exact h
  rw [if_neg h1] at h ⊢
  by_cases h2 : tmpl.success = false
  · rw [if_pos h2] at h ⊢; exact h
  rw [if_neg h2] at h ⊢
  cases hd : probe.descriptors with
  | none => simp only [hd] at h ⊢; exact h
  | some des_probe =>
  cases ht : tmpl.descriptors with
  | none => simp only [hd, ht] at h ⊢; exact h
  | some des_template =>
  simp only [hd, ht] at h ⊢
  by_cases h3 : des_probe.length < 10 ∨ des_template.length < 10
  · rw [if_pos h3] at h ⊢; exact h
  rw [if_neg h3] at h ⊢
  exact decide_match_mono _ _ h

end MatchService

namespace MatchService

/-! ## Concrete sample data used by witnesses and counterexamples -/

/-- 49 one-dimensional descriptors with pairwise distinct values: matching a
set against itself gives 49 ratio-test survivors (`d1 = 0 < RATIO² · d2`). -/
def sampleDes49 : List (List ℚ) :=
  (List.range 45).map (fun i => [(i : ℚ)]) ++ [[100], [200], [300], [400]]

/-- The first 45 of the 49 sample descriptors (values 0..44). -/
def sampleDes45 : List (List ℚ) := (List.range 45).map (fun i => [(i : ℚ)])

/-- 10 one-dimensional pairwise distinct descriptors. -/
def sampleDes10 : List (List ℚ) := (List.range 10).map (fun i => [(i : ℚ)])

/-- A freshly-extracted probe feature set over `sampleDes49`. -/
def sampleProbe : Features :=
  { success := true, keypoints := 160, descriptors := some sampleDes49,
    quality_flag := false, quality_warn := true, error := none,
    is_precomputed := false }

/-- A precomputed template feature set over `sampleDes49`. -/
def sampleTmpl : Features := { sampleProbe with is_precomputed := true }

/-- A probe/template pair over `sampleDes10`. -/
def smallProbe : Features := { sampleProbe with descriptors := some sampleDes10 }

def smallTmpl : Features := { smallProbe with is_precomputed := true }

set_option maxRecDepth 100000 in
unseal Rat.mul Rat.add Rat.sub Rat.inv in
theorem strict_accepted_imp_lenient_accepted_witness :
    (match_feature_sets sampleProbe sampleTmpl none false).accepted = true := by
  have h : (match_feature_sets sampleProbe sampleTmpl none true).accepted = true := by
    decide
  exact strict_accepted_imp_lenient_accepted sampleProbe sampleTmpl none h

/-! ## Claim C7: the threshold and required-score formulas -/

/-- Projections of the decision tail: it never changes the score/threshold
fields of its payload. -/
theorem decide_match_threshold_used (payload : MatchPayload) (prec m : Bool) :
    (decide_match payload prec m).threshold_used = payload.threshold_used := by
  unfold decide_match
  by_cases h1 : payload.probe_quality_ok = false
  · rw [if_pos h1]
  rw [if_neg h1]
  cases m <;> simp only [Bool.false_eq_true, if_true, if_false, reduceIte]
  · cases lenient_gate payload.score payload.threshold_used payload.required_score prec with
    | some r => rfl
    | none => split_ifs <;> rfl
  · cases strict_gate payload.score payload.threshold_used payload.required_score with
    | some r => rfl
    | none => split_ifs <;> rfl

theorem decide_match_required_score (payload : MatchPayload) (prec m : Bool) :
    (decide_match payload prec m).required_score = payload.required_score := by
  unfold decide_match
  by_cases h1 : payload.probe_quality_ok = false
  · rw [if_pos h1]
  rw [if_neg h1]
  cases m <;> simp only [Bool.false_eq_true, if_true, if_false, reduceIte]
  · cases lenient_gate payload.score payload.threshold_used payload.required_score prec with
    | some r => rfl
    | none => split_ifs <;> rfl
  · cases strict_gate payload.score payload.threshold_used payload.required_score with
    | some r => rfl
    | none => split_ifs <;> rfl

end MatchService

namespace MatchService

theorem pyInt_eq_floor_of_nonneg (q : ℚ) (h : 0 ≤ q) : pyInt q = ⌊q⌋ := by
  unfold pyInt
  rw [if_neg (not_lt.2 h)]

/-- **C7** (amended): for every probe/template pair that reaches scoring, the
Matcher's threshold equals `max(FP_MIN_BASE, floor(min_kp · FP_MIN_PERCENT))`
with `min_kp = min(probe.kp, template.kp)`, or `max(1, override)` when an
override is supplied (the override is clamped below by 1, not used as-is),
and `required_score = threshold + max(FP_MARGIN_BASE,
round(threshold · FP_MARGIN_PERCENT))` with Python's round-half-to-even. -/
theorem matcher_threshold_formula (probe tmpl : Features) (o : Option ℤ) (m : Bool)
    (dp dt : List (List ℚ))
    (hps : probe.success = true) (hts : tmpl.success = true)
    (hdp : probe.descriptors = some dp) (hdt : tmpl.descriptors = some dt)
    (hlp : 10 ≤ dp.length) (hlt : 10 ≤ dt.length) :
    (match_feature_sets probe tmpl o m).threshold_used =
      (match o with
       | some ov => max 1 ov
       | none =>
         max FP_MIN_BASE ⌊((min probe.keypoints tmpl.keypoints : ℕ) : ℚ) * FP_MIN_PERCENT⌋) ∧
    (match_feature_sets probe tmpl o m).required_score =
      (match_feature_sets probe tmpl o m).threshold_used +
        max FP_MARGIN_BASE
          (pyRound (((match_feature_sets probe tmpl o m).threshold_used : ℚ) *
            FP_MARGIN_PERCENT)) := by
  have hthr : ∀ kp : ℕ, compute_threshold kp o =
      (match o with
       | some ov => max 1 ov
       | none => max FP_MIN_BASE ⌊((kp : ℕ) : ℚ) * FP_MIN_PERCENT⌋) := by
    intro kp
    unfold compute_threshold
    cases o with
    | some ov => rfl
    | none =>
      rw [pyInt_eq_floor_of_nonneg _
        (mul_nonneg (by positivity) (by norm_num [FP_MIN_PERCENT]))]
      show max (max FP_MIN_BASE ⌊((kp : ℕ) : ℚ) * FP_MIN_PERCENT⌋) 1 =
        max FP_MIN_BASE ⌊((kp : ℕ) : ℚ) * FP_MIN_PERCENT⌋
      have h45 : (1 : ℤ) ≤ FP_MIN_BASE := by decide
      omega
  unfold match_feature_sets
  rw [if_neg (by simp [hps]), if_neg (by simp [hts])]
  simp only [hdp, hdt]
  rw [if_neg (by omega)]
  rw [decide_match_threshold_used, decide_match_required_score]
  refine ⟨?_, ?_⟩
  · exact hthr (base_match_payload probe tmpl).min_keypoints
  · rfl

end MatchService

namespace MatchService

set_option maxRecDepth 40000 in
unseal Rat.mul Rat.add Rat.sub Rat.inv in
/-- **C7 counterexample**: the claim says that when an override is supplied,
the override is used as the threshold; but `compute_threshold` clamps the
override below by 1.  With override 0 the Matcher reports
`threshold_used = 1`, not 0. -/
theorem matcher_threshold_override_counterexample :
    (match_feature_sets smallProbe smallTmpl (some 0) false).threshold_used = 1 ∧
    (match_feature_sets smallProbe smallTmpl (some 0) false).threshold_used ≠ 0 := by
  constructor <;> decide

set_option maxRecDepth 40000 in
unseal Rat.mul Rat.add Rat.sub Rat.inv in
theorem matcher_threshold_formula_witness :
    (match_feature_sets smallProbe smallTmpl (some 7) false).threshold_used =
      max 1 7 ∧
    (match_feature_sets smallProbe smallTmpl (some 7) false).required_score =
      (match_feature_sets smallProbe smallTmpl (some 7) false).threshold_used +
        max FP_MARGIN_BASE
          (pyRound (((match_feature_sets smallProbe smallTmpl (some 7)
            false).threshold_used : ℚ) * FP_MARGIN_PERCENT)) :=
  matcher_threshold_formula smallProbe smallTmpl (some 7) false
    sampleDes10 sampleDes10 rfl rfl rfl rfl (by decide) (by decide)

end MatchService

namespace MatchService

/-! ## Claim C9: the early-exit policy of `match_templates`

The `as_completed` gathering loop of `match_templates` is modelled as a fold
over the list of worker results in their (arbitrary) completion order.
`total` is `len(data.templates_b64)`.  The loop appends each completed
result; when a completed result is accepted with confidence
`≥ FP_CONF_HIGH + 15` *and* `total ≥ 3`, it cancels the still-pending
workers and breaks; with fewer than 3 templates it logs and continues. -/

/-- A completed worker result, as inspected by the gathering loop. -/
structure WorkerResult where
  idx : ℕ
  accepted : Bool
  confidence : ℚ
deriving DecidableEq

/-- The gathering loop of `match_templates` over the completion order:
returns the collected results and whether early-exit cancellation fired. -/
def gather_results (total : ℕ) : List WorkerResult → List WorkerResult × Bool
  | [] => ([], false)
  | r :: rest =>
    if r.accepted = true ∧ FP_CONF_HIGH + 15 ≤ r.confidence ∧ 3 ≤ total then
      ([r], true)
    else
      let p := gather_results total rest
      (r :: p.1, p.2)

/-- **C9**: still-pending workers are cancelled only when some completed
result is accepted with confidence `≥ FP_CONF_HIGH + 15` and the total
number of templates being evaluated is `≥ 3`; with exactly 2 templates
early exit never fires and both results are collected. -/
theorem early_exit_policy :
    (∀ (total : ℕ) (arrivals : List WorkerResult),
      (gather_results total arrivals).2 = true →
        3 ≤ total ∧ ∃ r ∈ (gather_results total arrivals).1,
          r.accepted = true ∧ FP_CONF_HIGH + 15 ≤ r.confidence) ∧
    (∀ arrivals : List WorkerResult,
      gather_results 2 arrivals = (arrivals, false)) := by
  constructor
  · intro total arrivals
    induction arrivals with
    | nil => intro h; simp [gather_results] at h
    | cons r rest ih =>
      intro h
      unfold gather_results at h
      by_cases hc : r.accepted = true ∧ FP_CONF_HIGH + 15 ≤ r.confidence ∧ 3 ≤ total
      · refine ⟨hc.2.2, r, ?_, hc.1, hc.2.1⟩
        unfold gather_results
        rw [if_pos hc]
        simp
      · rw [if_neg hc] at h
        simp only at h
        obtain ⟨htot, r2, hr2, hprop⟩ := ih h
        refine ⟨htot, r2, ?_, hprop⟩
        unfold gather_results
        rw [if_neg hc]
        simp only [List.mem_cons]
        exact Or.inr hr2
  · intro arrivals
    induction arrivals with
    | nil => rfl
    | cons r rest ih =>
      unfold gather_results
      rw [if_neg (by intro hcc; omega)]
      simp [ih]

end MatchService

namespace MatchService

/-- A worker result that triggers early exit when `total ≥ 3`. -/
def exitWorker : WorkerResult := { idx := 0, accepted := true, confidence := 100 }

/-- A worker result that never triggers early exit. -/
def pendWorker : WorkerResult := { idx := 1, accepted := false, confidence := 0 }

unseal Rat.mul Rat.add Rat.sub Rat.inv in
theorem early_exit_policy_witness :
    (3 ≤ 3 ∧ ∃ r ∈ (gather_results 3 [exitWorker, pendWorker]).1,
      r.accepted = true ∧ FP_CONF_HIGH + 15 ≤ r.confidence) ∧
    gather_results 2 [exitWorker, pendWorker] = ([exitWorker, pendWorker], false) :=
  ⟨early_exit_policy.1 3 [exitWorker, pendWorker] (by decide),
   early_exit_policy.2 [exitWorker, pendWorker]⟩

end MatchService

namespace MatchService

/-! ## Claim C6: multi-template verification (`match_templates` decision)

The decision part of `match_templates` (after all worker results are
gathered and reassembled in input order): best-result selection, the
non-empty filter, secondary-support selection and the corroboration gates.
Python's identity test `candidate is best_result` is modelled by comparing
`template_index`, which is unique across the results of one request. -/

/-- The reasons excluded from `non_empty_templates`. -/
def invalid_template_reasons : List String :=
  ["empty_template", "decode_failed", "enhancement_failed",
   "insufficient_features", "cancelled_early_exit"]

/-- `non_empty_templates`: results whose reason is not an input failure. -/
def non_empty_results (results : List MatchPayload) : List MatchPayload :=
  results.filter (fun r =>
    match r.reason with
    | some s => decide (s ∉ invalid_template_reasons)
    | none => true)

/-- The best-result selection fold of `match_templates` (accepted beats
unaccepted; ties in acceptance broken by strictly greater score; the first
of equals wins). -/
def pick_best (results : List MatchPayload) : Option MatchPayload :=
  results.foldl
    (fun best r =>
      match best with
      | none => some r
      | some b =>
        if r.accepted = true ∧ b.accepted = false then some r
        else if r.accepted = true ∧ b.accepted = true ∧ b.score < r.score then some r
        else if b.accepted = false ∧ b.score < r.score then some r
        else some b)
    none

/-- The secondary-support selection: the highest-scoring non-best result
(first of equals), starting from `best_secondary_score = -1`. -/
def pick_secondary (best : MatchPayload) (candidates : List MatchPayload) :
    Option MatchPayload :=
  (candidates.foldl
    (fun acc c =>
      if c.template_index = best.template_index then acc
      else if acc.1 < (c.score : ℤ) then ((c.score : ℤ), some c) else acc)
    ((-1 : ℤ), none)).2

/-- The tier-dependent secondary validation of `match_templates`. -/
def secondary_valid (primary_score : ℕ) (s : MatchPayload) : Bool :=
  let support_score : ℤ := (s.score : ℤ)
  let support_required : ℤ := s.required_score
  let secondary_threshold : ℤ := s.threshold_used
  if 70 ≤ primary_score then
    decide ((45 : ℤ) ≤ support_score) &&
      decide (max 45 (pyInt ((secondary_threshold : ℚ) * (85/100))) ≤ support_score)
  else if 60 ≤ primary_score then
    let secondary_min_threshold := max 45 (pyInt ((secondary_threshold : ℚ) * (80/100)))
    if s.is_precomputed = true then
      (decide (support_required - 2 ≤ support_score) && decide ((45 : ℤ) ≤ support_score)) ||
        decide (secondary_min_threshold ≤ support_score)
    else
      decide ((45 : ℤ) ≤ support_score) && decide (secondary_min_threshold ≤ support_score)
  else
    s.accepted && decide (FP_ABS_MIN_SCORE ≤ support_score)

/-- The overall decision of `match_templates`. -/
structure MTDecision where
  accepted : Bool
  decision_reason : Option String
  best_template_index : Option ℕ
  best_score : ℕ
deriving DecidableEq

/-- The decision logic of `match_templates` after the per-template results
are gathered: best selection, secondary corroboration for ≥ 2 evaluated
templates, and the single-template dynamic margin otherwise. -/
def match_templates_decision (template_results : List MatchPayload) : MTDecision :=
  match pick_best template_results with
  | none =>
    { accepted := false, decision_reason := some "no_templates_evaluados"
      best_template_index := none, best_score := 0 }
  | some best_result =>
    let non_empty := non_empty_results template_results
    let template_count := non_empty.length
    let secondary_support :=
      if 2 ≤ template_count then pick_secondary best_result non_empty else none
    let primary_margin : ℤ := (best_result.score : ℤ) - best_result.required_score
    if best_result.accepted = true then
      if 2 ≤ template_count then
        match secondary_support with
        | some s =>
          let min_primary_margin : ℤ := if best_result.is_precomputed = true then 3 else 5
          if secondary_valid best_result.score s = false ∨
              primary_margin < min_primary_margin then
            { accepted := false, decision_reason := some "secondary_template_disagrees"
              best_template_index := some best_result.template_index
              best_score := best_result.score }
          else
            { accepted := true, decision_reason := some "match_found"
              best_template_index := some best_result.template_index
              best_score := best_result.score }
        | none =>
          { accepted := false, decision_reason := some "secondary_template_required"
            best_template_index := some best_result.template_index
            best_score := best_result.score }
      else
        let dynamic_margin :=
          max FP_SINGLE_TEMPLATE_MARGIN_MIN
            (pyRound ((best_result.required_score : ℚ) * FP_SINGLE_TEMPLATE_MARGIN_RATIO))
        if (best_result.score : ℤ) < best_result.required_score + dynamic_margin then
          { accepted := false, decision_reason := some "single_template_margin"
            best_template_index := some best_result.template_index
            best_score := best_result.score }
        else
          { accepted := true, decision_reason := some "match_found"
            best_template_index := some best_result.template_index
            best_score := best_result.score }
    else
      { accepted := false, decision_reason := some (best_result.reason.getD "no_match")
        best_template_index := some best_result.template_index
        best_score := best_result.score }

end MatchService

namespace MatchService

/-- The claim's wording of the tier gate on the secondary template: very
strong primary (≥ 70) needs the secondary at 45 and 85% of its threshold;
moderate (60–69) needs 45 and 80% of threshold, with a 2-point slack against
its required score for precomputed secondaries; weak (< 60) needs the
secondary to be an accepted match. -/
def claim_tier_ok (primary_score : ℕ) (s : MatchPayload) : Prop :=
  if 70 ≤ primary_score then
    (45 : ℤ) ≤ (s.score : ℤ) ∧ pyInt ((s.threshold_used : ℚ) * (85/100)) ≤ (s.score : ℤ)
  else if 60 ≤ primary_score then
    ((45 : ℤ) ≤ (s.score : ℤ) ∧ pyInt ((s.threshold_used : ℚ) * (80/100)) ≤ (s.score : ℤ)) ∨
      (s.is_precomputed = true ∧ s.required_score - 2 ≤ (s.score : ℤ) ∧
        (45 : ℤ) ≤ (s.score : ℤ))
  else s.accepted = true

theorem secondary_valid_imp_claim_tier (p : ℕ) (s : MatchPayload)
    (h : secondary_valid p s = true) : claim_tier_ok p s := by
  unfold secondary_valid at h
  unfold claim_tier_ok
  by_cases h1 : 70 ≤ p
  · rw [if_pos h1] at h ⊢
    simp only [Bool.and_eq_true, decide_eq_true_eq] at h
    omega
  rw [if_neg h1] at h ⊢
  by_cases h2 : 60 ≤ p
  · rw [if_pos h2] at h ⊢
    by_cases h3 : s.is_precomputed = true
    · rw [if_pos h3] at h
      simp only [Bool.or_eq_true, Bool.and_eq_true, decide_eq_true_eq] at h
      rcases h with ⟨hr, h45⟩ | hthr
      · exact Or.inr ⟨h3, hr, h45⟩
      · exact Or.inl ⟨by omega, by omega⟩
    · rw [if_neg h3] at h
      simp only [Bool.and_eq_true, decide_eq_true_eq] at h
      exact Or.inl ⟨h.1, by omega⟩
  · rw [if_neg h2] at h ⊢
    simp only [Bool.and_eq_true, decide_eq_true_eq] at h
    exact h.1

/-- **C6**: in multi-template verification with ≥ 2 evaluated templates and
a tentatively accepted best result: when a secondary-support template was
selected, the acceptance is kept only if (a) the primary's margin of score
over `required_score` is ≥ 3 for a precomputed primary (≥ 5 otherwise) and
(b) the highest-scoring non-best template passes its tier gate
(`claim_tier_ok`); any failure flips the decision to `accepted = false`
with reason `secondary_template_disagrees`.  When no secondary-support
template was selected at all, the decision is `accepted = false` with
reason `secondary_template_required`. -/
theorem match_templates_secondary_support (results : List MatchPayload)
    (b : MatchPayload)
    (hb : pick_best results = some b)
    (hacc : b.accepted = true)
    (hcount : 2 ≤ (non_empty_results results).length) :
    (∀ s, pick_secondary b (non_empty_results results) = some s →
      ((match_templates_decision results).accepted = true →
        ((if b.is_precomputed = true then (3 : ℤ) else 5) ≤
            (b.score : ℤ) - b.required_score) ∧ claim_tier_ok b.score s) ∧
      (¬(((if b.is_precomputed = true then (3 : ℤ) else 5) ≤
            (b.score : ℤ) - b.required_score) ∧ claim_tier_ok b.score s) →
        (match_templates_decision results).accepted = false ∧
        (match_templates_decision results).decision_reason =
          some "secondary_template_disagrees")) ∧
    (pick_secondary b (non_empty_results results) = none →
      (match_templates_decision results).accepted = false ∧
      (match_templates_decision results).decision_reason =
        some "secondary_template_required") := by
  unfold match_templates_decision
  rw [hb]
  simp only [if_pos hcount, if_pos hacc]
  constructor
  · intro s hs
    rw [hs]
    dsimp only
    by_cases hflip : secondary_valid b.score s = false ∨
        (b.score : ℤ) - b.required_score < (if b.is_precomputed = true then (3 : ℤ) else 5)
    · rw [if_pos hflip]
      constructor
      · intro habs
        exact absurd habs (by simp)
      · intro _
        exact ⟨rfl, rfl⟩
    · rw [if_neg hflip]
      push_neg at hflip
      obtain ⟨hvalid, hmargin⟩ := hflip
      constructor
      · intro _
        refine ⟨by omega, ?_⟩
        exact secondary_valid_imp_claim_tier _ _ (by simpa using hvalid)
      · intro hne
        exfalso
        exact hne ⟨by omega, secondary_valid_imp_claim_tier _ _ (by simpa using hvalid)⟩
  · intro hnone
    rw [hnone]
    dsimp only
    exact ⟨rfl, rfl⟩

end MatchService

namespace MatchService

/-- A strongly accepted primary verification result (score 72 against a
required score of 49). -/
def primaryResult : MatchPayload :=
  { accepted := true, score := 72, threshold_used := 45, required_score := 49,
    confidence := 100, confidence_required := 65, min_keypoints := 300,
    probe_keypoints := 300, template_keypoints := 300, probe_quality_ok := true,
    template_quality_ok := true, reason := some "match", is_precomputed := true,
    template_index := 0 }

/-- A weak unaccepted secondary verification result (score 20). -/
def secondaryResult : MatchPayload :=
  { primaryResult with
    accepted := false, score := 20,
    reason := some "score_below_abs_min", template_index := 1 }

set_option maxRecDepth 40000 in
unseal Rat.mul Rat.add Rat.sub Rat.inv in
theorem match_templates_secondary_support_witness :
    ((match_templates_decision [primaryResult, secondaryResult]).accepted = false ∧
      (match_templates_decision [primaryResult, secondaryResult]).decision_reason =
        some "secondary_template_disagrees") := by
  have h := match_templates_secondary_support [primaryResult, secondaryResult]
    primaryResult (by decide) (by decide) (by decide)
  refine (h.1 secondaryResult (by decide)).2 ?_
  intro hcon
  have htier := hcon.2
  unfold claim_tier_ok at htier
  rw [if_pos (by decide : 70 ≤ primaryResult.score)] at htier
  revert htier
  decide

end MatchService

namespace MatchService

/-! ## Claims C2 and C5: the `identify_employee` pipeline

The identification endpoint is embedded from the point where the top-k
shortlist of index entries is known (the embedding-space search itself is a
pre-filter and not part of these claims): per-candidate multi-template
strict matching (lines 2046–2097) and the anti-false-positive decision
layers (lines 2101–2203). -/

/-- Python runtime errors surfaced by dictionary access. -/
inductive PyErr
  | keyError
  | valueError
deriving DecidableEq

deriving instance DecidableEq for Except

/-- One entry of `EMPLOYEE_TEMPLATES`.  A full rebuild stores
`template_features_list` and `num_templates`; the incremental
`add_employee_to_index` stores a single `template_features` dict instead.
Absent keys are `none`, and `entry["key"]` access is `Except`-valued. -/
structure IndexEntry where
  employee_id : ℤ
  template_features_list : Option (List Features)
  num_templates : Option ℕ
  template_features : Option Features
deriving DecidableEq

/-- The per-employee result assembled by the identification loop. -/
structure CandidateResult where
  employee_id : ℤ
  result : MatchPayload
  num_templates_tested : ℕ
  all_template_scores : List ℕ
deriving DecidableEq

/-- Python `max(results, key=score)`: the first maximal element
(`ValueError` on an empty list is handled by the caller). -/
def max_by_score : List MatchPayload → Option MatchPayload
  | [] => none
  | r :: rest => some (rest.foldl (fun b c => if b.score < c.score then c else b) r)

/-- One iteration of the candidate loop of `identify_employee`: reads
`tmpl_entry["template_features_list"]` and `tmpl_entry["num_templates"]`
(raising `KeyError` when the entry does not carry them), evaluates the
Matcher in strict mode against every template, and keeps the best score. -/
def eval_candidate (probe : Features) (threshold_override : Option ℤ)
    (entry : IndexEntry) : Except PyErr CandidateResult :=
  match entry.template_features_list with
  | none => .error .keyError
  | some tf_list =>
    match entry.num_templates with
    | none => .error .keyError
    | some num_templates =>
      let template_results := tf_list.enum.map (fun p =>
        let tf := p.2
        let template_features : Features :=
          { success := tf.success, keypoints := tf.keypoints
            descriptors := tf.descriptors, quality_flag := tf.quality_flag
            quality_warn := tf.quality_warn, error := tf.error
            is_precomputed := true }
        let result := match_feature_sets probe template_features threshold_override true
        { result with is_precomputed := true, template_index := p.1 + 1 })
      match max_by_score template_results with
      | none => .error .valueError
      | some best =>
        .ok { employee_id := entry.employee_id, result := best
              num_templates_tested := num_templates
              all_template_scores := template_results.map (·.score) }

/-- The candidate phase of `identify_employee` over the shortlist. -/
def identify_candidates_phase (probe : Features) (threshold_override : Option ℤ)
    (entries : List IndexEntry) : Except PyErr (List CandidateResult) :=
  entries.mapM (eval_candidate probe threshold_override)

/-- The running best-result selection of the identification loop (same
comparison ladder as `match_templates`). -/
def pick_best_candidate (rs : List CandidateResult) : Option CandidateResult :=
  rs.foldl
    (fun best r =>
      match best with
      | none => some r
      | some b =>
        if r.result.accepted = true ∧ b.result.accepted = false then some r
        else if r.result.accepted = true ∧ b.result.accepted = true ∧
            b.result.score < r.result.score then some r
        else if b.result.accepted = false ∧ b.result.score < r.result.score then some r
        else some b)
    none

/-- Layer 1 of the anti-false-positive gating: the best score among all
*other* shortlisted employees. -/
def second_best_score (rs : List CandidateResult) (best_emp : ℤ) : ℕ :=
  rs.foldl
    (fun acc r =>
      if r.employee_id ≠ best_emp ∧ acc < r.result.score then r.result.score else acc)
    0

/-- Layer 2: the population-dependent minimum margin of victory. -/
def identify_min_margin (num_employees : ℕ) : ℤ :=
  if num_employees ≤ 4 then 10 else if num_employees ≤ 10 then 12 else 15

/-- The response of `identify_employee` (the fields the claims are about). -/
structure IdentifyOut where
  matched : Bool
  employee_id : Option ℤ
  decision_reason : Option String
  best_score : ℕ
deriving DecidableEq

/-- The anti-false-positive decision layers of `identify_employee` (margin
of victory, absolute floor, multi-template consistency), applied in order
to the tentatively best candidate. -/
def identify_decision (candidate_results : List CandidateResult)
    (num_employees : ℕ) : IdentifyOut :=
  match pick_best_candidate candidate_results with
  | none =>
    { matched := false, employee_id := none
      decision_reason := some "no_valid_results", best_score := 0 }
  | some best =>
    let best_emp := best.employee_id
    let state0 : Bool × Option String := (best.result.accepted, best.result.reason)
    let state3 :=
      if best.result.accepted = true then
        let sb := second_best_score candidate_results best_emp
        let margin_of_victory : ℤ := (best.result.score : ℤ) - (sb : ℤ)
        let min_margin := identify_min_margin num_employees
        let s1 :=
          if 1 < candidate_results.length ∧ margin_of_victory < min_margin then
            (false, some ("ambiguous_match_margin_" ++ toString margin_of_victory ++
              "<" ++ toString min_margin))
          else state0
        let min_absolute_score : ℤ :=
          if 0 < FP_ABS_MIN_SCORE then FP_ABS_MIN_SCORE else 45
        let s2 :=
          if (best.result.score : ℤ) < min_absolute_score then
            (false, some ("score_too_low_" ++ toString best.result.score ++ "<" ++
              toString min_absolute_score))
          else s1
        if 3 ≤ best.all_template_scores.length then
          let threshold_score : ℚ := (best.result.score : ℚ) * (6/10)
          let good_templates :=
            (best.all_template_scores.filter
              (fun (s : ℕ) => threshold_score ≤ ((s : ℕ) : ℚ))).length
          if good_templates < 2 then
            (false, some ("inconsistent_templates_" ++ toString good_templates ++ "/" ++
              toString best.all_template_scores.length))
          else s2
        else s2
      else state0
    { matched := state3.1
      employee_id := if state3.1 = true then some best_emp else none
      decision_reason :=
        if state3.1 = true then some "match_found" else some (state3.2.getD "no_match")
      best_score := best.result.score }

/-- `identify_employee` from the point where the shortlist of index entries
is known. -/
def identify_from_shortlist (probe : Features) (threshold_override : Option ℤ)
    (entries : List IndexEntry) (num_employees : ℕ) : Except PyErr IdentifyOut :=
  if entries.isEmpty then
    .ok { matched := false, employee_id := none
          decision_reason := some "no_candidates_found", best_score := 0 }
  else
    match identify_candidates_phase probe threshold_override entries with
    | .error e => .error e
    | .ok rs => .ok (identify_decision rs num_employees)

/-- Whether the character list of `p` is an initial segment of `s`
(used to state "a reason of the `..._*` family"). -/
def strHeadB (p s : String) : Bool := decide (s.data.take p.data.length = p.data)

end MatchService

namespace MatchService

theorem strHeadB_eq_true_of (p s : String) (t : List Char)
    (h : s.data = p.data ++ t) : strHeadB p s = true := by
  unfold strHeadB
  rw [h]
  simp [List.take_left]

/-- **C5** (amended): in 1:N identification, after a tentative acceptance
with more than one shortlisted candidate, if the winner's best score minus
the best score among the other shortlisted employees is below
`min_margin` (10 for ≤ 4 enrolled employees, 12 for ≤ 10, else 15), the
final result is `matched = false`; the decision reason belongs to the
`ambiguous_match_margin_*` family unless the later multi-template
consistency layer also fails (the winner has ≥ 3 template scores of which
fewer than 2 reach 60% of the best score), in which case that layer
overwrites the reason with one of the `inconsistent_templates_*` family. -/
theorem identify_margin_gate (rs : List CandidateResult) (num_employees : ℕ)
    (b : CandidateResult)
    (hb : pick_best_candidate rs = some b)
    (hacc : b.result.accepted = true)
    (h45 : (45 : ℤ) ≤ (b.result.score : ℤ))
    (hlen : 1 < rs.length)
    (hmargin : (b.result.score : ℤ) - (second_best_score rs b.employee_id : ℤ) <
      identify_min_margin num_employees) :
    (identify_decision rs num_employees).matched = false ∧
    (if 3 ≤ b.all_template_scores.length ∧
        (b.all_template_scores.filter
          (fun (s : ℕ) => ((b.result.score : ℚ) * (6/10)) ≤ ((s : ℕ) : ℚ))).length < 2 then
      strHeadB "inconsistent_templates_"
        (((identify_decision rs num_employees).decision_reason).getD "") = true
    else
      strHeadB "ambiguous_match_margin_"
        (((identify_decision rs num_employees).decision_reason).getD "") = true) := by
  have habs : (if 0 < FP_ABS_MIN_SCORE then FP_ABS_MIN_SCORE else (45 : ℤ)) = 45 := by
    decide
  unfold identify_decision
  rw [hb]
  dsimp only
  rw [if_pos hacc]
  by_cases h5 : 3 ≤ b.all_template_scores.length
  · rw [if_pos h5]
    by_cases hgood :
        (b.all_template_scores.filter
          (fun (s : ℕ) => ((b.result.score : ℚ) * (6/10)) ≤ ((s : ℕ) : ℚ))).length < 2
    · rw [if_pos hgood, if_pos ⟨h5, hgood⟩]
      refine ⟨rfl, ?_⟩
      exact strHeadB_eq_true_of _ _
        ((toString (b.all_template_scores.filter
            (fun (s : ℕ) => ((b.result.score : ℚ) * (6/10)) ≤ ((s : ℕ) : ℚ))).length).data ++
          ("/".data ++ (toString b.all_template_scores.length).data))
        (by simp)
    · rw [if_neg hgood, habs, if_neg (not_lt.2 h45), if_pos ⟨hlen, hmargin⟩,
        if_neg (fun hc => hgood hc.2)]
      refine ⟨rfl, ?_⟩
      exact strHeadB_eq_true_of _ _
        ((toString ((b.result.score : ℤ) -
            (second_best_score rs b.employee_id : ℤ))).data ++
          ("<".data ++ (toString (identify_min_margin num_employees)).data))
        (by simp)
  · rw [if_neg h5, habs, if_neg (not_lt.2 h45), if_pos ⟨hlen, hmargin⟩,
      if_neg (fun hc => h5 hc.1)]
    refine ⟨rfl, ?_⟩
    exact strHeadB_eq_true_of _ _
      ((toString ((b.result.score : ℤ) -
          (second_best_score rs b.employee_id : ℤ))).data ++
        ("<".data ++ (toString (identify_min_margin num_employees)).data))
      (by simp)

end MatchService

namespace MatchService

/-- A shortlisted candidate carrying one template with strict-mode score 49
(tentatively accepted). -/
def idCandidate (emp : ℤ) : CandidateResult :=
  { employee_id := emp
    result :=
      { accepted := true, score := 49, threshold_used := 45, required_score := 49,
        confidence := 100, confidence_required := 65, min_keypoints := 160,
        probe_keypoints := 160, template_keypoints := 160, probe_quality_ok := true,
        template_quality_ok := true, reason := some "match", is_precomputed := true,
        template_index := 1 }
    num_templates_tested := 1
    all_template_scores := [49] }

set_option maxRecDepth 40000 in
unseal Rat.mul Rat.add Rat.sub Rat.inv in
theorem identify_margin_gate_witness :
    (identify_decision [idCandidate 1, idCandidate 2, idCandidate 3] 3).matched = false ∧
    (if 3 ≤ (idCandidate 1).all_template_scores.length ∧
        ((idCandidate 1).all_template_scores.filter
          (fun (s : ℕ) =>
            (((idCandidate 1).result.score : ℚ) * (6/10)) ≤ ((s : ℕ) : ℚ))).length < 2 then
      strHeadB "inconsistent_templates_"
        (((identify_decision [idCandidate 1, idCandidate 2, idCandidate 3]
          3).decision_reason).getD "") = true
    else
      strHeadB "ambiguous_match_margin_"
        (((identify_decision [idCandidate 1, idCandidate 2, idCandidate 3]
          3).decision_reason).getD "") = true) :=
  identify_margin_gate [idCandidate 1, idCandidate 2, idCandidate 3] 3 (idCandidate 1)
    (by decide) (by decide) (by decide) (by decide) (by decide)

end MatchService

namespace MatchService

/-- A stored index template whose single descriptor row cannot be matched
(`insufficient_descriptors`, score 0). -/
def tinyTmpl : Features := { sampleTmpl with descriptors := some [[0]] }

/-- A stored index template sharing 45 of the probe's 49 descriptors. -/
def partialTmpl : Features := { sampleTmpl with descriptors := some sampleDes45 }

/-- Index entry of employee 1 (rebuild shape): one strong template and two
unmatchable ones. -/
def emp1Entry : IndexEntry :=
  { employee_id := 1, template_features_list := some [sampleTmpl, tinyTmpl, tinyTmpl],
    num_templates := some 3, template_features := none }

/-- Index entry of employee 2 (rebuild shape): one close-scoring template. -/
def emp2Entry : IndexEntry :=
  { employee_id := 2, template_features_list := some [partialTmpl],
    num_templates := some 1, template_features := none }

/-- The candidate result computed for employee 1 at this input. -/
def emp1Candidate : CandidateResult :=
  { employee_id := 1
    result :=
      { accepted := true, score := 49, threshold_used := 45, required_score := 49,
        confidence := 100, confidence_required := 65, min_keypoints := 160,
        probe_keypoints := 160, template_keypoints := 160, probe_quality_ok := true,
        template_quality_ok := true, reason := some "match", is_precomputed := true,
        template_index := 1 }
    num_templates_tested := 3
    all_template_scores := [49, 0, 0] }

/-- The candidate result computed for employee 2 at this input. -/
def emp2Candidate : CandidateResult :=
  { employee_id := 2
    result :=
      { accepted := false, score := 45, threshold_used := 45, required_score := 49,
        confidence := 100, confidence_required := 65, min_keypoints := 160,
        probe_keypoints := 160, template_keypoints := 160, probe_quality_ok := true,
        template_quality_ok := true, reason := some "insufficient_margin",
        is_precomputed := true, template_index := 1 }
    num_templates_tested := 1
    all_template_scores := [45] }

set_option maxRecDepth 200000 in
unseal Rat.mul Rat.add Rat.sub Rat.inv in
/-- **C5 counterexample**: at this concrete identification input the margin
gate fires (margin 4 < 10 with 2 enrolled employees, more than one
candidate, tentative acceptance), yet the final decision reason is
`inconsistent_templates_1/3` — the multi-template consistency layer
overwrites the `ambiguous_match_margin_*` reason, so the claim that the
final reason is always of the `ambiguous_match_margin` family is false. -/
theorem identify_margin_reason_counterexample :
    identify_candidates_phase sampleProbe none [emp1Entry, emp2Entry] =
      .ok [emp1Candidate, emp2Candidate] ∧
    pick_best_candidate [emp1Candidate, emp2Candidate] = some emp1Candidate ∧
    emp1Candidate.result.accepted = true ∧
    (emp1Candidate.result.score : ℤ) -
        (second_best_score [emp1Candidate, emp2Candidate] emp1Candidate.employee_id : ℤ) <
      identify_min_margin 2 ∧
    identify_from_shortlist sampleProbe none [emp1Entry, emp2Entry] 2 =
      .ok { matched := false, employee_id := none,
            decision_reason := some "inconsistent_templates_1/3", best_score := 49 } ∧
    strHeadB "ambiguous_match_margin_" "inconsistent_templates_1/3" = false := by
  refine ⟨by decide, by decide, rfl, by decide, ?_, by decide⟩
  unfold identify_from_shortlist
  rw [if_neg (by decide)]
  have h : identify_candidates_phase sampleProbe none [emp1Entry, emp2Entry] =
      .ok [emp1Candidate, emp2Candidate] := by decide
  rw [h]
  decide

end MatchService

namespace MatchService

/-! ## Claims C3 and C8: the template codec

The template wire format is `base64(gzip(json.dumps(template_data)))`.
Base64 is modelled concretely over byte lists.  The middle layer —
`json.dumps` + UTF-8 + gzip on the way in, gzip + UTF-8 + `json.loads` on
the way out — is passed in as `pack : JVal → List ℕ` / `unpack : List ℕ →
Option JVal` over a JSON value type; the properties of the real libraries
(round-trip; every gzip stream starts with bytes `1f 8b 08`, whose base64
is `H4sI`; decompression fails without the `1f 8b` magic) are hypotheses of
the theorems.  JSON numbers are exact `ℚ` values: Python's float repr
round-trips doubles exactly, and float32 → double → float32 is lossless, so
the numeric pipeline of the codec is value-preserving. -/

/-- JSON values as produced by `json.loads`. -/
inductive JVal where
  | jnum (q : ℚ)
  | jstr (s : String)
  | jarr (l : List JVal)
  | jobj (l : List (String × JVal))
  | jnull

/-- Dictionary lookup in a JSON object. -/
def getKey : List (String × JVal) → String → Option JVal
  | [], _ => none
  | (k, v) :: rest, key => if k = key then some v else getKey rest key

/-- Python `key in data` for the shapes relevant here (`data` a dict or a
list; other shapes are unreachable for the codec inputs of the claims). -/
def hasKeyB (v : JVal) (key : String) : Bool :=
  match v with
  | .jobj fields => (getKey fields key).isSome
  | .jarr l =>
    l.any (fun x => match x with | .jstr s => decide (s = key) | _ => false)
  | _ => false

/-! ### Base64 (concrete model of Python `base64.b64encode/b64decode`) -/

def b64Alphabet : List Char :=
  "ABCDEFGHIJKLMNOPQRSTUVWXYZabcdefghijklmnopqrstuvwxyz0123456789+/".data

def b64Char (n : ℕ) : Char := b64Alphabet.getD n 'A'

def b64Val (c : Char) : Option ℕ := b64Alphabet.findIdx? (· = c)

/-- Base64 encoding of a byte list (standard alphabet, `=`-padded). -/
def b64encodeBytes : List ℕ → List Char
  | [] => []
  | [b1] => [b64Char (b1 / 4), b64Char (b1 % 4 * 16), '=', '=']
  | [b1, b2] =>
    [b64Char (b1 / 4), b64Char (b1 % 4 * 16 + b2 / 16), b64Char (b2 % 16 * 4), '=']
  | b1 :: b2 :: b3 :: rest =>
    b64Char (b1 / 4) :: b64Char (b1 % 4 * 16 + b2 / 16) ::
      b64Char (b2 % 16 * 4 + b3 / 64) :: b64Char (b3 % 64) :: b64encodeBytes rest

/-- Base64 decoding of a character list: 4-character groups, `=`-padding
only in the final group, failure on characters outside the alphabet. -/
def b64decodeChars : List Char → Option (List ℕ)
  | [] => some []
  | c1 :: c2 :: c3 :: c4 :: rest =>
    if c3 = '=' ∧ c4 = '=' ∧ rest = [] then do
      let v1 ← b64Val c1
      let v2 ← b64Val c2
      pure [v1 * 4 + v2 / 16]
    else if c4 = '=' ∧ rest = [] then do
      let v1 ← b64Val c1
      let v2 ← b64Val c2
      let v3 ← b64Val c3
      pure [v1 * 4 + v2 / 16, v2 % 16 * 16 + v3 / 4]
    else do
      let v1 ← b64Val c1
      let v2 ← b64Val c2
      let v3 ← b64Val c3
      let v4 ← b64Val c4
      let tail ← b64decodeChars rest
      pure ((v1 * 4 + v2 / 16) :: (v2 % 16 * 16 + v3 / 4) :: (v3 % 4 * 64 + v4) :: tail)
  | _ => none

def b64encode (bs : List ℕ) : String := String.mk (b64encodeBytes bs)

def b64decode (s : String) : Option (List ℕ) := b64decodeChars s.data

theorem b64Val_b64Char : ∀ x, x < 64 → b64Val (b64Char x) = some x := by decide

theorem b64Char_ne_pad : ∀ n, b64Char n ≠ '=' := by
  intro n
  by_cases h : n < 64
  · revert h
    revert n
    decide
  · unfold b64Char
    rw [List.getD_eq_default _ _ (by simp [b64Alphabet]; omega)]
    decide

theorem b64_decode_encode :
    ∀ (bs : List ℕ), (∀ b ∈ bs, b < 256) → b64decodeChars (b64encodeBytes bs) = some bs
  | [], _ => rfl
  | [b1], h => by
    have hb1 : b1 < 256 := h b1 (by simp)
    unfold b64encodeBytes b64decodeChars
    rw [if_pos ⟨rfl, rfl, rfl⟩]
    rw [b64Val_b64Char _ (by omega), b64Val_b64Char _ (by omega)]
    simp only [Option.bind_eq_bind, Option.some_bind, Option.pure_def,
      Option.some.injEq, List.cons.injEq, and_true]
    omega
  | [b1, b2], h => by
    have hb1 : b1 < 256 := h b1 (by simp)
    have hb2 : b2 < 256 := h b2 (by simp)
    unfold b64encodeBytes b64decodeChars
    rw [if_neg (fun hc => b64Char_ne_pad _ hc.1), if_pos ⟨rfl, rfl⟩]
    rw [b64Val_b64Char _ (by omega), b64Val_b64Char _ (by omega),
      b64Val_b64Char _ (by omega)]
    simp only [Option.bind_eq_bind, Option.some_bind, Option.pure_def,
      Option.some.injEq, List.cons.injEq, and_true]
    exact ⟨by omega, by omega⟩
  | b1 :: b2 :: b3 :: rest, h => by
    have hb1 : b1 < 256 := h b1 (by simp)
    have hb2 : b2 < 256 := h b2 (by simp)
    have hb3 : b3 < 256 := h b3 (by simp)
    have ih := b64_decode_encode rest (fun b hb => h b (by simp [hb]))
    unfold b64encodeBytes b64decodeChars
    rw [if_neg (fun hc => b64Char_ne_pad _ hc.1),
      if_neg (fun hc => b64Char_ne_pad _ hc.1)]
    rw [b64Val_b64Char _ (by omega), b64Val_b64Char _ (by omega),
      b64Val_b64Char _ (by omega), b64Val_b64Char _ (by omega)]
    simp only [Option.bind_eq_bind, Option.some_bind]
    rw [ih]
    simp only [Option.some_bind, Option.pure_def, Option.some.injEq, List.cons.injEq,
      and_true]
    exact ⟨by omega, by omega, by omega⟩

end MatchService

namespace MatchService

/-! ### Keypoints, template payloads, serialization -/

/-- A `cv2.KeyPoint`: the full field set round-tripped by the codec. -/
structure KeyPoint where
  x : ℚ
  y : ℚ
  size : ℚ
  angle : ℚ
  response : ℚ
  octave : ℤ
  class_id : ℤ
deriving DecidableEq

/-- The metadata block reconstructed by `deserialize_keypoints_descriptors`. -/
structure TemplateMeta where
  method : String
  kp_count : ℤ
  roi_w : Option ℤ
  roi_h : Option ℤ
deriving DecidableEq

/-- One keypoint as stored in the template JSON. -/
def keypoint_to_jval (kp : KeyPoint) : JVal :=
  .jobj [("x", .jnum kp.x), ("y", .jnum kp.y), ("size", .jnum kp.size),
         ("angle", .jnum kp.angle), ("response", .jnum kp.response),
         ("octave", .jnum (kp.octave : ℚ)), ("class_id", .jnum (kp.class_id : ℚ))]

/-- The `template_data` JSON object built by
`serialize_keypoints_descriptors` (`roi_shape` is `(height, width)`). -/
def template_to_jval (keypoints : List KeyPoint) (descriptors : List (List ℚ))
    (enhancement_method : String) (roi_shape : Option (ℤ × ℤ)) : JVal :=
  .jobj [("method", .jstr enhancement_method),
         ("kp_count", .jnum (keypoints.length : ℚ)),
         ("roi_w", match roi_shape with | some r => .jnum (r.2 : ℚ) | none => .jnull),
         ("roi_h", match roi_shape with | some r => .jnum (r.1 : ℚ) | none => .jnull),
         ("kpts", .jarr (keypoints.map keypoint_to_jval)),
         ("des", .jarr (descriptors.map (fun row => .jarr (row.map .jnum))))]

/-- `serialize_keypoints_descriptors(keypoints, descriptors,
enhancement_method, roi_shape)`: JSON → gzip → base64 (`None` on an empty
keypoint list). -/
def serialize_keypoints_descriptors (pack : JVal → List ℕ)
    (keypoints : List KeyPoint) (descriptors : List (List ℚ))
    (enhancement_method : String) (roi_shape : Option (ℤ × ℤ)) : Option String :=
  if keypoints.length = 0 then none
  else
    some (b64encode
      (pack (template_to_jval keypoints descriptors enhancement_method roi_shape)))

def jval_num : JVal → Option ℚ
  | .jnum q => some q
  | _ => none

/-- Sequential fallible map (a Python `for` loop that propagates the first
failure). -/
def optionMapM (f : α → Option β) : List α → Option (List β)
  | [] => some []
  | a :: rest => do
    let b ← f a
    let bs ← optionMapM f rest
    pure (b :: bs)

/-- Keypoint reconstruction:
`cv2.KeyPoint(x=float(d["x"]), ..., octave=int(d["octave"]), ...)`. -/
def parse_keypoint (v : JVal) : Option KeyPoint :=
  match v with
  | .jobj fields => do
    let x ← (getKey fields "x").bind jval_num
    let y ← (getKey fields "y").bind jval_num
    let size ← (getKey fields "size").bind jval_num
    let angle ← (getKey fields "angle").bind jval_num
    let response ← (getKey fields "response").bind jval_num
    let octave ← (getKey fields "octave").bind jval_num
    let class_id ← (getKey fields "class_id").bind jval_num
    pure { x := x, y := y, size := size, angle := angle, response := response,
           octave := pyInt octave, class_id := pyInt class_id }
  | _ => none

/-- `np.array(template_data["des"], dtype=np.float32)`: nested numeric
lists; a ragged nest raises (handled by the caller as `None`). -/
def parse_rows (v : JVal) : Option (List (List ℚ)) :=
  match v with
  | .jarr rows =>
    optionMapM
      (fun r => match r with | .jarr cells => optionMapM jval_num cells | _ => none)
      rows
  | _ => none

def rect_check : List (List ℚ) → Bool
  | [] => true
  | r :: rs => rs.all (fun r2 => r2.length = r.length)

/-- `deserialize_keypoints_descriptors(b64_compressed_json)`: length guard,
base64 decode, gzip + JSON (`unpack`), field validation, keypoint and
descriptor reconstruction, metadata extraction. -/
def deserialize_keypoints_descriptors (unpack : List ℕ → Option JVal) (s : String) :
    Option (List KeyPoint × List (List ℚ) × TemplateMeta) :=
  if s.length < 100 then none
  else
    match b64decode s with
    | none => none
    | some bytes =>
      match unpack bytes with
      | none => none
      | some (.jobj fields) =>
        if (getKey fields "kpts").isSome = true ∧ (getKey fields "des").isSome = true then
          match (getKey fields "kpts").bind
              (fun kv =>
                match kv with
                | .jarr l => optionMapM parse_keypoint l
                | _ => none) with
          | none => none
          | some keypoints =>
            match (getKey fields "des").bind parse_rows with
            | none => none
            | some descriptors =>
              if rect_check descriptors = true then
                some (keypoints, descriptors,
                  { method :=
                      match getKey fields "method" with
                      | some (.jstr m) => m
                      | _ => "unknown"
                    kp_count :=
                      match getKey fields "kp_count" with
                      | some (.jnum q) => pyInt q
                      | _ => (keypoints.length : ℤ)
                    roi_w :=
                      match getKey fields "roi_w" with
                      | some (.jnum q) => some (pyInt q)
                      | _ => none
                    roi_h :=
                      match getKey fields "roi_h" with
                      | some (.jnum q) => some (pyInt q)
                      | _ => none })
              else none
        else none
      | some _ => none

/-- `is_precomputed_template(template_data)`: the magic-`H4sI` classifier
with inner validation, the truncation heuristic for short `H4sI` strings,
and the tolerant path for very long inputs without the magic. -/
def is_precomputed_template (unpack : List ℕ → Option JVal)
    (template_data : String) : Bool :=
  if template_data.length < 100 then false
  else if strHeadB "H4sI" template_data = true then
    match (b64decode template_data).bind unpack with
    | some v => hasKeyB v "kpts" && hasKeyB v "des"
    | none => if template_data.length < 5000 then false else true
  else if 10000 < template_data.length then
    match (b64decode template_data).bind unpack with
    | some v => hasKeyB v "kpts" && hasKeyB v "des"
    | none => false
  else false

/-- `load_precomputed_template(b64_compressed_json, label)`. -/
def load_precomputed_template (unpack : List ℕ → Option JVal) (s : String) : Features :=
  match deserialize_keypoints_descriptors unpack s with
  | none =>
    { success := false, keypoints := 0, descriptors := none, quality_flag := false,
      quality_warn := false, error := some "deserialization_failed",
      is_precomputed := true }
  | some (keypoints, descriptors, _meta) =>
    let kp_count := keypoints.length
    let success := decide (10 ≤ kp_count)
    { success := success, keypoints := kp_count, descriptors := some descriptors,
      quality_flag := decide (FP_MIN_KEYPOINTS ≤ kp_count),
      quality_warn := decide (FP_MIN_KEYPOINTS_WARN ≤ kp_count),
      error := if success = true then none else some "insufficient_features",
      is_precomputed := true }

end MatchService

namespace MatchService

theorem parse_keypoint_round (kp : KeyPoint) :
    parse_keypoint (keypoint_to_jval kp) = some kp := by
  unfold parse_keypoint keypoint_to_jval
  simp [getKey, jval_num, pyInt_intCast]

theorem mapM_parse_keypoint (l : List KeyPoint) :
    optionMapM parse_keypoint (l.map keypoint_to_jval) = some l := by
  induction l with
  | nil => rfl
  | cons k rest ih =>
    simp only [List.map_cons, optionMapM, parse_keypoint_round, ih,
      Option.bind_eq_bind, Option.some_bind]
    rfl

theorem mapM_jval_num (row : List ℚ) :
    optionMapM jval_num (row.map JVal.jnum) = some row := by
  induction row with
  | nil => rfl
  | cons q rest ih =>
    simp only [List.map_cons, optionMapM, jval_num, ih,
      Option.bind_eq_bind, Option.some_bind]
    rfl

theorem parse_rows_round (des : List (List ℚ)) :
    parse_rows (.jarr (des.map (fun row => .jarr (row.map .jnum)))) = some des := by
  unfold parse_rows
  induction des with
  | nil => rfl
  | cons r rest ih =>
    simp only [List.map_cons, optionMapM, mapM_jval_num, Option.bind_eq_bind,
      Option.some_bind] at ih ⊢
    rw [show optionMapM
        (fun r => match r with | .jarr cells => optionMapM jval_num cells | _ => none)
        (rest.map (fun row => JVal.jarr (row.map .jnum))) = some rest from ih]
    rfl

theorem rect_check_of_all (des : List (List ℚ)) (h : ∀ row ∈ des, row.length = 128) :
    rect_check des = true := by
  cases des with
  | nil => rfl
  | cons r rs =>
    unfold rect_check
    rw [List.all_eq_true]
    intro r2 hr2
    rw [h r2 (by simp [hr2]), h r (by simp)]
    exact decide_eq_true rfl

/-- **C3**: for every feature set with at least 10 keypoints and an N×128
descriptor matrix, decoding the template encoding yields a descriptor
matrix numerically equal to the input's descriptors and a keypoint list
structurally equal to the input's keypoints (all seven stored fields),
plus the stored metadata.  The gzip+JSON layer is abstracted by
`pack`/`unpack` with its round-trip property at this value as a
hypothesis; JSON numbers are exact, matching the lossless float32 → repr →
float32 pipeline of the code. -/
theorem template_codec_round_trip (pack : JVal → List ℕ)
    (unpack : List ℕ → Option JVal)
    (keypoints : List KeyPoint) (descriptors : List (List ℚ))
    (enhancement_method : String) (roi_shape : Option (ℤ × ℤ)) (s : String)
    (hser : serialize_keypoints_descriptors pack keypoints descriptors
      enhancement_method roi_shape = some s)
    (hkp : 10 ≤ keypoints.length)
    (h128 : ∀ row ∈ descriptors, row.length = 128)
    (hbytes : ∀ b ∈ pack (template_to_jval keypoints descriptors
      enhancement_method roi_shape), b < 256)
    (hup : unpack (pack (template_to_jval keypoints descriptors
        enhancement_method roi_shape)) =
      some (template_to_jval keypoints descriptors enhancement_method roi_shape))
    (hlen : 100 ≤ s.length) :
    deserialize_keypoints_descriptors unpack s =
      some (keypoints, descriptors,
        { method := enhancement_method, kp_count := (keypoints.length : ℤ)
          roi_w := roi_shape.map (fun r => r.2)
          roi_h := roi_shape.map (fun r => r.1) }) := by
  unfold serialize_keypoints_descriptors at hser
  rw [if_neg (by omega)] at hser
  injection hser with hs
  subst hs
  unfold deserialize_keypoints_descriptors
  rw [if_neg (not_lt.2 hlen)]
  have hdec : b64decode (b64encode (pack (template_to_jval keypoints descriptors
      enhancement_method roi_shape))) =
      some (pack (template_to_jval keypoints descriptors enhancement_method
        roi_shape)) :=
    b64_decode_encode _ hbytes
  rw [hdec]
  dsimp only
  rw [hup]
  unfold template_to_jval
  dsimp only
  simp only [getKey, String.reduceEq, reduceIte, Option.isSome_some,
    Option.bind_eq_bind, Option.some_bind, and_self, if_true]
  rw [mapM_parse_keypoint keypoints]
  rw [parse_rows_round descriptors]
  dsimp only
  rw [if_pos (rect_check_of_all descriptors h128)]
  simp only [Option.some.injEq, Prod.mk.injEq, true_and]
  cases roi_shape with
  | none => simp [pyInt_natCast]
  | some r => simp [pyInt_natCast, pyInt_intCast]

end MatchService

namespace MatchService

/-! ### Concrete codec sample data (for witnesses) -/

def sampleKeypoint : KeyPoint :=
  { x := 1, y := 2, size := 3, angle := 0, response := 1/2, octave := 0, class_id := -1 }

def sampleKps : List KeyPoint := List.replicate 10 sampleKeypoint

def sampleDesT : List (List ℚ) := List.replicate 10 (List.replicate 128 (1 : ℚ))

def sampleTemplateJVal : JVal :=
  template_to_jval sampleKps sampleDesT "professional" (some (200, 200))

/-- A stand-in for the gzip+JSON bytes of `sampleTemplateJVal`: carries the
gzip stream header `1f 8b 08` and enough length. -/
def toyPacked : List ℕ := 31 :: 139 :: 8 :: List.replicate 97 0

def toyPack : JVal → List ℕ := fun _ => toyPacked

def toyUnpack : List ℕ → Option JVal :=
  fun bs => if bs = toyPacked then some sampleTemplateJVal else none

set_option maxRecDepth 100000 in
unseal Rat.mul Rat.add Rat.sub Rat.inv in
theorem template_codec_round_trip_witness :
    deserialize_keypoints_descriptors toyUnpack
        (b64encode (toyPack sampleTemplateJVal)) =
      some (sampleKps, sampleDesT,
        { method := "professional", kp_count := (sampleKps.length : ℤ)
          roi_w := some 200, roi_h := some 200 }) :=
  template_codec_round_trip toyPack toyUnpack sampleKps sampleDesT "professional"
    (some (200, 200)) (b64encode (toyPack sampleTemplateJVal)) rfl
    (by decide) (by decide) (by decide)
    (by dsimp only [toyUnpack, toyPack]; rw [if_pos rfl]; rfl) (by decide)

end MatchService

namespace MatchService

/-! ### Claim C8: magic-prefix classification -/

theorem b64encode_gzip_head (rest : List ℕ) :
    b64encodeBytes (31 :: 139 :: 8 :: rest) = 'H' :: '4' :: 's' :: 'I' :: b64encodeBytes rest :=
  rfl

theorem b64decode_iVBOR_head (rest : List Char) (bs : List ℕ)
    (h : b64decodeChars ('i' :: 'V' :: 'B' :: 'O' :: rest) = some bs) :
    bs.take 2 ≠ [31, 139] := by
  unfold b64decodeChars at h
  rw [if_neg (fun hc => absurd hc.1 (by decide)),
    if_neg (fun hc => absurd hc.1 (by decide))] at h
  rw [show b64Val 'i' = some 34 from by decide,
    show b64Val 'V' = some 21 from by decide,
    show b64Val 'B' = some 1 from by decide,
    show b64Val 'O' = some 14 from by decide] at h
  simp only [Option.bind_eq_bind, Option.some_bind] at h
  cases hrest : b64decodeChars rest with
  | none => rw [hrest] at h; simp at h
  | some tail =>
    rw [hrest] at h
    simp only [Option.some_bind, Option.pure_def, Option.some.injEq] at h
    subst h
    rw [show ((34 * 4 + 21 / 16) :: (21 % 16 * 16 + 1 / 4) :: (1 % 4 * 64 + 14) ::
      tail).take 2 = [34 * 4 + 21 / 16, 21 % 16 * 16 + 1 / 4] from rfl]
    intro hcon
    injection hcon with h1 h2
    omega

/-- **C8**: (i) every string produced by the template encoder — whose
gzip+JSON bytes carry the `1f 8b 08` stream header, round-trip through
`unpack`, and whose base64 form is at least 100 characters — is classified
as a precomputed template; (ii) every input shorter than 100 characters is
never classified as a template; (iii) a raw PNG base64 string (beginning
with `iVBOR`) is never classified as a template, since gzip decompression
fails on data without the `1f 8b` magic. -/
theorem template_classification :
    (∀ (pack : JVal → List ℕ) (unpack : List ℕ → Option JVal)
       (keypoints : List KeyPoint) (descriptors : List (List ℚ))
       (enhancement_method : String) (roi_shape : Option (ℤ × ℤ))
       (s : String) (rest : List ℕ),
      serialize_keypoints_descriptors pack keypoints descriptors
        enhancement_method roi_shape = some s →
      pack (template_to_jval keypoints descriptors enhancement_method roi_shape) =
        31 :: 139 :: 8 :: rest →
      (∀ b ∈ pack (template_to_jval keypoints descriptors enhancement_method
        roi_shape), b < 256) →
      unpack (pack (template_to_jval keypoints descriptors enhancement_method
          roi_shape)) =
        some (template_to_jval keypoints descriptors enhancement_method roi_shape) →
      100 ≤ s.length →
      is_precomputed_template unpack s = true) ∧
    (∀ (unpack : List ℕ → Option JVal) (s : String),
      s.length < 100 → is_precomputed_template unpack s = false) ∧
    (∀ (unpack : List ℕ → Option JVal) (s : String),
      strHeadB "iVBOR" s = true →
      (∀ bs : List ℕ, bs.take 2 ≠ [31, 139] → unpack bs = none) →
      is_precomputed_template unpack s = false) := by
  refine ⟨?_, ?_, ?_⟩
  · intro pack unpack keypoints descriptors enhancement_method roi_shape s rest
      hser hhead hbytes hup hlen
    have hkp0 : keypoints.length ≠ 0 := by
      intro h0
      unfold serialize_keypoints_descriptors at hser
      rw [if_pos h0] at hser
      exact Option.noConfusion hser
    unfold serialize_keypoints_descriptors at hser
    rw [if_neg hkp0] at hser
    injection hser with hs
    subst hs
    unfold is_precomputed_template
    rw [if_neg (not_lt.2 hlen)]
    have hstarts : strHeadB "H4sI"
        (b64encode (pack (template_to_jval keypoints descriptors
          enhancement_method roi_shape))) = true := by
      unfold strHeadB b64encode
      rw [hhead, b64encode_gzip_head]
      rfl
    rw [if_pos hstarts]
    have hdec : b64decode (b64encode (pack (template_to_jval keypoints descriptors
        enhancement_method roi_shape))) =
        some (pack (template_to_jval keypoints descriptors enhancement_method
          roi_shape)) :=
      b64_decode_encode _ hbytes
    rw [hdec]
    simp only [Option.some_bind, Option.bind_eq_bind]
    rw [hup]
    unfold template_to_jval hasKeyB
    simp [getKey]
  · intro unpack s h
    unfold is_precomputed_template
    rw [if_pos h]
  · intro unpack s hivbor hng
    unfold is_precomputed_template
    by_cases hlen : s.length < 100
    · rw [if_pos hlen]
    rw [if_neg hlen]
    have hdata : s.data = 'i' :: 'V' :: 'B' :: 'O' :: 'R' :: s.data.drop 5 := by
      unfold strHeadB at hivbor
      have htake : s.data.take ("iVBOR".data.length) = "iVBOR".data :=
        of_decide_eq_true hivbor
      conv_lhs => rw [(List.take_append_drop 5 s.data).symm]
      rw [show ("iVBOR".data.length) = 5 from rfl] at htake
      rw [htake]
      rfl
    have hnoth4si : strHeadB "H4sI" s = false := by
      unfold strHeadB
      rw [hdata]
      rfl
    rw [hnoth4si]
    simp only [Bool.false_eq_true, if_false, reduceIte]
    by_cases hbig : 10000 < s.length
    · rw [if_pos hbig]
      unfold b64decode
      rw [hdata]
      cases hd : b64decodeChars ('i' :: 'V' :: 'B' :: 'O' :: 'R' :: s.data.drop 5) with
      | none => rfl
      | some bs =>
        simp only [Option.bind_eq_bind, Option.some_bind]
        rw [hng bs (b64decode_iVBOR_head _ _ hd)]
    · rw [if_neg hbig]

end MatchService

namespace MatchService

/-- A raw-PNG-style base64 string (over 100 characters, `iVBOR` head). -/
def pngSample : String := "iVBOR" ++ String.mk (List.replicate 100 'A')

set_option maxRecDepth 100000 in
unseal Rat.mul Rat.add Rat.sub Rat.inv in
theorem template_classification_witness :
    is_precomputed_template toyUnpack (b64encode (toyPack sampleTemplateJVal)) = true ∧
    is_precomputed_template toyUnpack "xy" = false ∧
    is_precomputed_template (fun _ => none) pngSample = false :=
  ⟨template_classification.1 toyPack toyUnpack sampleKps sampleDesT "professional"
      (some (200, 200)) (b64encode (toyPack sampleTemplateJVal))
      (List.replicate 97 0) rfl rfl (by decide)
      (by dsimp only [toyUnpack, toyPack]; rw [if_pos rfl]; rfl) (by decide),
   template_classification.2.1 toyUnpack "xy" (by decide),
   template_classification.2.2 (fun _ => none) pngSample (by decide)
     (fun _ _ => rfl)⟩

end MatchService

namespace MatchService

/-! ## Claims C1, C2, C10: the in-memory employee index

`rebuild_employee_index` / `add_employee_to_index` are embedded as state
transformers over the module globals (`EMPLOYEE_VECTORS`,
`EMPLOYEE_TEMPLATES`, `EMPLOYEE_IDS`, `EMPLOYEE_INDEX_READY`,
`FAISS_INDEX`).  The database connection+query outcome is an input
(`Except DbError`); the OpenCV decode/enhance/ROI/SIFT chain of the PNG
path is abstracted as `extractImage : String → Option Features`. -/

/-- Python `str.strip()`: drop whitespace on both ends. -/
def pyStrip (s : String) : String :=
  String.mk (((s.data.dropWhile Char.isWhitespace).reverse.dropWhile
    Char.isWhitespace).reverse)

/-- Componentwise sum of two rows. -/
def vecAdd (a b : List ℚ) : List ℚ := (a.zip b).map (fun p => p.1 + p.2)

/-- Column-wise mean of an N×d descriptor matrix
(`descriptors.mean(axis=0)`). -/
def meanVec (rows : List (List ℚ)) : List ℚ :=
  match rows with
  | [] => []
  | r :: rs => (rs.foldl vecAdd r).map (fun x => x / ((rs.length + 1 : ℕ) : ℚ))

/-- Squared L2 norm (`np.linalg.norm(v)²`). -/
def l2normSq (v : List ℝ) : ℝ := (v.map (fun x => x * x)).sum

/-- `descriptors_to_vector(descriptors)`: mean of the descriptor rows,
L2-normalized when the norm is positive (the mean is returned unnormalized
— e.g. a zero vector — when its norm is 0); `None` on an empty matrix. -/
noncomputable def descriptors_to_vector (descriptors : List (List ℚ)) :
    Option (List ℝ) :=
  if descriptors.length = 0 then none
  else
    let vec := meanVec descriptors
    let norm : ℝ := Real.sqrt (l2normSq (vec.map (fun x => (x : ℝ))))
    if 0 < norm then some (vec.map (fun x => (x : ℝ) / norm))
    else some (vec.map (fun x => (x : ℝ)))

/-- `np.vstack([tf["descriptors"] for tf in template_features_list])`. -/
def vstack_descriptors (feats : List Features) : List (List ℚ) :=
  (feats.map (fun f => f.descriptors.getD [])).flatten

/-- The module-level index state. -/
structure IndexState where
  employee_vectors : Option (List (List ℝ))
  employee_templates : List IndexEntry
  employee_ids : List ℤ
  employee_index_ready : Bool
  faiss_index : Option (List (List ℝ))

/-- One row of the rebuild query: `id_empleado`, `num_templates`, the four
`huella_gzip_i` and the four `huella_i` columns (`""` for NULL). -/
structure EmployeeRow where
  id_empleado : ℤ
  num_templates : ℤ
  huella_gzip_slots : List String
  huella_png_slots : List String

/-- Lines 310–407 of `rebuild_employee_index`: load one template slot.
The gzip column is preferred when non-empty and `H4sI`-headed; otherwise a
PNG column is run through the in-memory extraction chain; the loaded
features are validated (success flag, non-empty descriptor matrix). -/
def load_template_slot (unpack : List ℕ → Option JVal)
    (extractImage : String → Option Features) (gz png : String) : Option Features :=
  if pyStrip gz = "" ∧ pyStrip png = "" then none
  else
    let t_features : Option Features :=
      if gz ≠ "" ∧ 10 ≤ gz.length then
        if strHeadB "H4sI" gz = true then
          let t := load_precomputed_template unpack gz
          if t.success = true then some t else none
        else none
      else if png ≠ "" ∧ 10 ≤ png.length ∧ strHeadB "iVBOR" png = true then
        extractImage png
      else none
    t_features.bind (fun t =>
      if t.success = true then
        match t.descriptors with
        | some des => if des.length = 0 then none else some t
        | none => none
      else none)

/-- Lines 289–446: process one employee row into an index entry and its
aggregated embedding (skipped when no slot loads or no embedding can be
built). -/
noncomputable def process_employee_row (unpack : List ℕ → Option JVal)
    (extractImage : String → Option Features) (row : EmployeeRow) :
    Option (IndexEntry × List ℝ) :=
  let feats := (List.range 4).filterMap (fun i =>
    load_template_slot unpack extractImage
      (row.huella_gzip_slots.getD i "") (row.huella_png_slots.getD i ""))
  if feats.length = 0 then none
  else
    match descriptors_to_vector (vstack_descriptors feats) with
    | none => none
    | some vec =>
      some ({ employee_id := row.id_empleado
              template_features_list := some feats
              num_templates := some feats.length
              template_features := none }, vec)

/-- A database-access failure (connection or query). -/
inductive DbError
  | connectionFailed
  | queryFailed
deriving DecidableEq

/-- `rebuild_employee_index()`: on a successful query, rebuild all globals
from the rows (clearing them when nothing valid was loaded); a raised
database error lands in the `except` handler of lines 488–497, which
resets every global and returns `False`. -/
noncomputable def rebuild_employee_index (unpack : List ℕ → Option JVal)
    (extractImage : String → Option Features) (faiss_available : Bool)
    (st : IndexState) (db : Except DbError (List EmployeeRow)) :
    IndexState × Bool :=
  match db with
  | .error _ =>
    ({ employee_vectors := none, employee_templates := [], employee_ids := []
       employee_index_ready := false, faiss_index := none }, false)
  | .ok rows =>
    let loaded := rows.filterMap (process_employee_row unpack extractImage)
    if loaded.length = 0 then
      ({ employee_vectors := none, employee_templates := [], employee_ids := []
         employee_index_ready := false, faiss_index := none }, false)
    else
      let vectors := loaded.map (fun p => p.2)
      ({ employee_vectors := some vectors
         employee_templates := loaded.map (fun p => p.1)
         employee_ids := loaded.map (fun p => p.1.employee_id)
         employee_index_ready := true
         faiss_index := if faiss_available = true then some vectors else none }, true)

/-- The single-employee query row of `add_employee_to_index`
(`huella_gzip` and `huella` columns; `none` when the employee is missing
or inactive). -/
structure SyncRow where
  id_empleado : ℤ
  huella_gzip : String
  huella : String

/-- `add_employee_to_index(employee_id)`: incremental add.  Appends to the
vector matrix, the template list (a single `template_features` dict — NOT
the `template_features_list`/`num_templates` shape used by the rebuild)
and the id list; updates the accelerator when present. -/
noncomputable def add_employee_to_index (unpack : List ℕ → Option JVal)
    (extractImage : String → Option Features) (faiss_available : Bool)
    (st : IndexState) (employee_id : ℤ) (row : Option SyncRow) :
    IndexState × Bool :=
  if st.employee_ids.contains employee_id then (st, true)
  else
    match row with
    | none => (st, false)
    | some r =>
      let t_features : Option Features :=
        if r.huella_gzip ≠ "" ∧ 10 ≤ r.huella_gzip.length ∧
            strHeadB "H4sI" r.huella_gzip = true then
          let t := load_precomputed_template unpack r.huella_gzip
          if t.success = true then some t else none
        else if r.huella ≠ "" ∧ 10 ≤ r.huella.length ∧
            strHeadB "iVBOR" r.huella = true then
          extractImage r.huella
        else none
      match t_features with
      | none => (st, false)
      | some t =>
        match t.descriptors with
        | none => (st, false)
        | some des =>
          if des.length = 0 then (st, false)
          else
            match descriptors_to_vector des with
            | none => (st, false)
            | some vec =>
              ({ employee_vectors := some ((st.employee_vectors.getD []) ++ [vec])
                 employee_templates := st.employee_templates ++
                   [{ employee_id := employee_id, template_features_list := none
                      num_templates := none, template_features := some t }]
                 employee_ids := st.employee_ids ++ [employee_id]
                 employee_index_ready := st.employee_index_ready
                 faiss_index :=
                   if faiss_available = true then
                     match st.faiss_index with
                     | some fi => some (fi ++ [vec])
                     | none => st.faiss_index
                   else st.faiss_index }, true)

end MatchService

namespace MatchService

/-- **C1** (amended): a database-access failure during a full index rebuild
does NOT leave the previously built index in place: the exception handler
clears the whole in-memory index (vector matrix `None`, record list and id
list empty, accelerator `None`, ready flag false) and reports failure —
whatever the prior index state was. -/
theorem rebuild_db_failure_clears_index (unpack : List ℕ → Option JVal)
    (extractImage : String → Option Features) (faiss_available : Bool)
    (st : IndexState) (e : DbError) :
    rebuild_employee_index unpack extractImage faiss_available st (.error e) =
      ({ employee_vectors := none, employee_templates := [], employee_ids := []
         employee_index_ready := false, faiss_index := none }, false) := rfl

/-- A previously built one-employee index state. -/
noncomputable def builtState : IndexState :=
  { employee_vectors := some [[1]], employee_templates := [emp1Entry]
    employee_ids := [7], employee_index_ready := true, faiss_index := none }

/-- **C1 counterexample**: with an index previously holding employee 7, a
database failure during rebuild empties the id list (and resets the rest),
contradicting the claim that the old index is left in place. -/
theorem rebuild_db_failure_counterexample :
    builtState.employee_ids = [7] ∧
    (rebuild_employee_index toyUnpack (fun _ => none) false builtState
      (.error .connectionFailed)).1.employee_ids = [] ∧
    (rebuild_employee_index toyUnpack (fun _ => none) false builtState
      (.error .connectionFailed)).1.employee_index_ready = false ∧
    (rebuild_employee_index toyUnpack (fun _ => none) false builtState
      (.error .connectionFailed)).1.employee_vectors = none ∧
    (rebuild_employee_index toyUnpack (fun _ => none) false builtState
      (.error .connectionFailed)).2 = false ∧
    ([] : List ℤ) ≠ [7] :=
  ⟨rfl, rfl, rfl, rfl, rfl, by decide⟩

end MatchService

namespace MatchService

theorem l2normSq_div (l : List ℝ) (c : ℝ) :
    l2normSq (l.map (fun x => x / c)) = l2normSq l / (c * c) := by
  unfold l2normSq
  induction l with
  | nil => simp
  | cons a t ih =>
    simp only [List.map_cons, List.map_map, List.sum_cons] at ih ⊢
    rw [ih]
    field_simp

theorem l2normSq_nonneg (l : List ℝ) : 0 ≤ l2normSq l := by
  unfold l2normSq
  induction l with
  | nil => simp
  | cons a t ih =>
    simp only [List.map_cons, List.sum_cons]
    nlinarith [mul_self_nonneg a]

/-- **C10** (amended): every embedding vector inserted into the index has
L2 norm 1 (squared norm 1) *provided the mean of the stacked descriptors
is nonzero*; and the vector stored by the rebuild's row processing is
exactly the output of `descriptors_to_vector` on the stacked descriptor
matrix of the loaded templates. -/
theorem embedding_unit_norm :
    (∀ (descriptors : List (List ℚ)) (v : List ℝ),
      descriptors_to_vector descriptors = some v →
      0 < l2normSq ((meanVec descriptors).map (fun x => (x : ℝ))) →
      l2normSq v = 1) ∧
    (∀ (unpack : List ℕ → Option JVal) (extractImage : String → Option Features)
       (row : EmployeeRow) (entry : IndexEntry) (v : List ℝ),
      process_employee_row unpack extractImage row = some (entry, v) →
      descriptors_to_vector (vstack_descriptors
        ((List.range 4).filterMap (fun i => load_template_slot unpack extractImage
          (row.huella_gzip_slots.getD i "")
          (row.huella_png_slots.getD i "")))) = some v) := by
  constructor
  · intro descriptors v hv hpos
    unfold descriptors_to_vector at hv
    by_cases h0 : descriptors.length = 0
    · rw [if_pos h0] at hv
      exact absurd hv (by simp)
    rw [if_neg h0] at hv
    dsimp only at hv
    set s : ℝ := l2normSq ((meanVec descriptors).map (fun x => (x : ℝ))) with hs
    have hsqrtpos : 0 < Real.sqrt s := Real.sqrt_pos.2 hpos
    rw [if_pos hsqrtpos] at hv
    injection hv with hv
    subst hv
    rw [show ((meanVec descriptors).map
        (fun x => (x : ℝ) / Real.sqrt s)) =
        (((meanVec descriptors).map (fun x => (x : ℝ))).map
          (fun x => x / Real.sqrt s)) by rw [List.map_map]; rfl]
    rw [l2normSq_div, Real.mul_self_sqrt (le_of_lt hpos), ← hs]
    exact div_self (ne_of_gt hpos)
  · intro unpack extractImage row entry v h
    unfold process_employee_row at h
    dsimp only at h
    by_cases h0 : ((List.range 4).filterMap (fun i =>
        load_template_slot unpack extractImage
          (row.huella_gzip_slots.getD i "")
          (row.huella_png_slots.getD i ""))).length = 0
    · rw [if_pos h0] at h
      exact absurd h (by simp)
    rw [if_neg h0] at h
    cases hd : descriptors_to_vector (vstack_descriptors
        ((List.range 4).filterMap (fun i => load_template_slot unpack extractImage
          (row.huella_gzip_slots.getD i "")
          (row.huella_png_slots.getD i "")))) with
    | none => rw [hd] at h; exact absurd h (by simp)
    | some vec =>
      rw [hd] at h
      simp only [Option.some.injEq, Prod.mk.injEq] at h
      exact congrArg some h.2

end MatchService

namespace MatchService

/-! ### Concrete index data shared by the C2 and C10 theorems -/

/-- A 10×2 all-zero descriptor matrix (as stored in a crafted template). -/
def zeroDes : List (List ℚ) := List.replicate 10 [0, 0]

def zeroTemplateJVal : JVal := template_to_jval sampleKps zeroDes "professional" none

/-- A `H4sI`-headed template string of 104 characters. -/
def gzSample : String := "H4sI" ++ String.mk (List.replicate 100 'A')

/-- The gzip+JSON layer decoding `gzSample` to the all-zero template. -/
def zeroUnpack : List ℕ → Option JVal := fun _ => some zeroTemplateJVal

/-- The features loaded from the all-zero template. -/
def zeroFeat : Features :=
  { success := true, keypoints := 10, descriptors := some zeroDes
    quality_flag := false, quality_warn := false, error := none
    is_precomputed := true }

unseal Rat.mul Rat.add Rat.sub Rat.inv in
theorem load_zeroFeat : load_precomputed_template zeroUnpack gzSample = zeroFeat := by
  decide

unseal Rat.mul Rat.add Rat.sub Rat.inv in
theorem meanVec_zeroDes : meanVec zeroDes = [0, 0] := by decide

theorem dtv_zeroDes : descriptors_to_vector zeroDes = some [(0 : ℝ), 0] := by
  unfold descriptors_to_vector
  rw [if_neg (by decide)]
  dsimp only
  rw [meanVec_zeroDes]
  have hl : l2normSq ((([0, 0] : List ℚ)).map (fun x => (x : ℝ))) = 0 := by
    simp [l2normSq]
  rw [hl, Real.sqrt_zero, if_neg (lt_irrefl 0)]
  simp

/-- The database row of the zero-template employee (rebuild query shape). -/
def zeroRow : EmployeeRow :=
  { id_empleado := 9, num_templates := 1
    huella_gzip_slots := [gzSample, "", "", ""]
    huella_png_slots := ["", "", "", ""] }

/-- The index entry the rebuild builds for `zeroRow`. -/
def zeroEntry : IndexEntry :=
  { employee_id := 9, template_features_list := some [zeroFeat]
    num_templates := some 1, template_features := none }

unseal Rat.mul Rat.add Rat.sub Rat.inv in
theorem slots_zeroRow :
    (List.range 4).filterMap (fun i =>
      load_template_slot zeroUnpack (fun _ => none)
        (zeroRow.huella_gzip_slots.getD i "")
        (zeroRow.huella_png_slots.getD i "")) = [zeroFeat] := by decide

/-- **C10 counterexample**: an employee whose stored template carries an
all-zero descriptor matrix is inserted into the index by the rebuild with
the zero vector as its embedding — squared L2 norm 0, not 1 (the norm-0
branch of `descriptors_to_vector` skips normalization and the rebuild's
only guard is that the embedding is not `None`). -/
theorem embedding_zero_norm_counterexample :
    process_employee_row zeroUnpack (fun _ => none) zeroRow =
      some (zeroEntry, [(0 : ℝ), 0]) ∧
    l2normSq [(0 : ℝ), 0] = 0 ∧
    (0 : ℝ) ≠ 1 := by
  refine ⟨?_, by simp [l2normSq], by norm_num⟩
  have hstack : vstack_descriptors [zeroFeat] = zeroDes := by decide
  unfold process_employee_row
  dsimp only
  rw [slots_zeroRow, if_neg (by decide), hstack, dtv_zeroDes]
  rfl

/-- The normalized embedding of the single descriptor row `[3, 4]`. -/
noncomputable def unitSampleVec : List ℝ :=
  (meanVec [[3, 4]]).map (fun x => (x : ℝ) /
    Real.sqrt (l2normSq ((meanVec [[3, 4]]).map (fun x => (x : ℝ)))))

unseal Rat.mul Rat.add Rat.sub Rat.inv in
theorem meanVec_34 : meanVec [[3, 4]] = [3, 4] := by decide

theorem embedding_unit_norm_witness : l2normSq unitSampleVec = 1 := by
  have hpos : 0 < l2normSq ((meanVec [[3, 4]]).map (fun x => (x : ℝ))) := by
    rw [meanVec_34]
    unfold l2normSq
    norm_num
  have hdtv : descriptors_to_vector [[3, 4]] = some unitSampleVec := by
    unfold descriptors_to_vector unitSampleVec
    rw [if_neg (by decide)]
    dsimp only
    rw [if_pos (Real.sqrt_pos.2 hpos)]
  exact embedding_unit_norm.1 [[3, 4]] unitSampleVec hdtv hpos

end MatchService

namespace MatchService

/-- The single-employee sync row of employee 4, carrying the stored
template `gzSample`. -/
def syncRow : SyncRow := { id_empleado := 4, huella_gzip := gzSample, huella := "" }

/-- The empty index state. -/
def emptyState : IndexState :=
  { employee_vectors := none, employee_templates := [], employee_ids := []
    employee_index_ready := false, faiss_index := none }

/-- The entry `add_employee_to_index` appends for employee 4: a single
`template_features` dict, no `template_features_list`/`num_templates`. -/
def syncEntry : IndexEntry :=
  { employee_id := 4, template_features_list := none, num_templates := none
    template_features := some zeroFeat }

set_option maxRecDepth 100000 in
unseal Rat.mul Rat.add Rat.sub Rat.inv in
/-- **C2** (code bug): the incremental sync appends an `EmployeeRecord` of
a different shape than the records built by the full rebuild — it stores a
single `template_features` dict where the rebuild stores
`template_features_list` and `num_templates` — and the identification loop
reads `tmpl_entry["template_features_list"]` unconditionally.  An
identification whose shortlist contains a sync-added employee therefore
raises `KeyError` (HTTP 500) instead of evaluating the Matcher, for any
probe; the claimed `matched=true` for a strong probe is unreachable. -/
theorem sync_shape_mismatch_identify_keyerror :
    (add_employee_to_index zeroUnpack (fun _ => none) false emptyState 4
      (some syncRow)).2 = true ∧
    (add_employee_to_index zeroUnpack (fun _ => none) false emptyState 4
      (some syncRow)).1.employee_templates = [syncEntry] ∧
    syncEntry.template_features_list = none ∧
    zeroEntry.template_features_list ≠ none ∧
    eval_candidate sampleProbe none syncEntry = .error .keyError ∧
    identify_from_shortlist sampleProbe none [syncEntry] 1 =
      .error .keyError := by
  have hadd : add_employee_to_index zeroUnpack (fun _ => none) false emptyState 4
      (some syncRow) =
      ({ employee_vectors := some [[(0 : ℝ), 0]]
         employee_templates := [syncEntry]
         employee_ids := [4]
         employee_index_ready := false
         faiss_index := none }, true) := by
    unfold add_employee_to_index
    rw [if_neg (by decide)]
    dsimp only
    rw [if_pos (show syncRow.huella_gzip ≠ "" ∧ 10 ≤ syncRow.huella_gzip.length ∧
      strHeadB "H4sI" syncRow.huella_gzip = true by refine ⟨by decide, by decide, by decide⟩)]
    rw [show load_precomputed_template zeroUnpack syncRow.huella_gzip = zeroFeat
      from load_zeroFeat]
    rw [if_pos (show zeroFeat.success = true from rfl)]
    dsimp only
    rw [show zeroFeat.descriptors = some zeroDes from rfl]
    dsimp only
    rw [if_neg (by decide), dtv_zeroDes]
    rfl
  refine ⟨by rw [hadd], by rw [hadd], rfl, by decide, rfl, by decide⟩

end MatchService
